import Mathlib

/-!
Shallow embedding of the MQTT connection worker of powerunit-io/platform
(`src/unnamed/part_000`, package `mqtt`).  The worker is a `Connection`
struct embedding a logger and a dynamic key/value configuration; its
operations are `Start`, `Subscribe`, `BrokerHandler`, `Validate`, the
configuration accessors (`GetBrokerAddr`, `GetBrokerCredentials`,
`GetBrokerClientID`, `GetBrokerTopicName`, `Name`) and `Stop`.

Go-specific behaviour modelled explicitly:
  * a single-valued type assertion `x.(T)` panics when `x` does not hold a
    `T`; we embed every operation in `Except GoPanic` so that a panic is a
    first-class outcome distinct from a returned `error` value;
  * a Go `error` result is `Option Err` (`none` = `nil`);
  * channel behaviour of `Start` is modelled by a per-generation step
    function over the supervisor loop's state (see `stepGen`).
-/

namespace Mqtt

/-- A Go `error` payload; only its identity matters to the claims. -/
abbrev Err := String

/-- A dynamically typed configuration value (`interface{}` in Go): either a
string, a nested string-keyed object (`map[string]interface{}`), or some
other scalar (stands for any value that is neither a string nor a map). -/
inductive CVal where
  | str (s : String)
  | obj (fields : List (String × CVal))
  | int (n : Int)

/-- A Go runtime panic raised by a failed single-valued type assertion
`x.(T)` (tagged with the configuration key being asserted), or by closing
an already-closed channel. -/
inductive GoPanic where
  | interfaceConversion (key : String)
  | closeOfClosedChannel
deriving DecidableEq

abbrev ConfigObj := List (String × CVal)

/-- The worker's configuration: the key/value store behind
`config.Config.Get`. -/
abbrev Config := ConfigObj

/-- Key lookup in a string-keyed object; `none` is Go's `nil` for a missing
key (both `Config.Get` on an absent key and indexing a map at an absent
key yield `nil`). -/
def lookupKV : ConfigObj → String → Option CVal
  | [], _ => none
  | (k, v) :: rest, key => if k == key then some v else lookupKV rest key

/-- `c.Config.Get(key)`. -/
def configGet (cfg : Config) (key : String) : Option CVal :=
  lookupKV cfg key

/-- The unchecked Go assertion `v.(string)`: yields the string, or panics
when the value is absent (`nil`) or not a string. -/
def asStringE (key : String) : Option CVal → Except GoPanic String
  | some (.str s) => .ok s
  | _ => .error (.interfaceConversion key)

/-- The unchecked Go assertion `v.(map[string]interface{})`. -/
def asObjE (key : String) : Option CVal → Except GoPanic ConfigObj
  | some (.obj m) => .ok m
  | _ => .error (.interfaceConversion key)

/-- The checked Go assertion `_, ok := v.(string)`: just the boolean. -/
def isStringVal : Option CVal → Bool
  | some (.str _) => true
  | _ => false

/-- Go `strings.Contains(s, c)` for the single-character needles the source
uses. -/
def stringContains (s : String) (c : Char) : Bool :=
  s.data.contains c

/-- `func (c *Connection) Name() string`: the unchecked assertion
`c.Config.Get("name").(string)` (source lines 278-280). -/
def Name (cfg : Config) : Except GoPanic String :=
  asStringE "name" (configGet cfg "name")

/-- `GetBrokerAddr` (source lines 254-257): asserts the `connection` map,
then its `network` and `address` strings, and formats
`"%s://%s?timeout=10s"`. -/
def GetBrokerAddr (cfg : Config) : Except GoPanic String := do
  let connection ← asObjE "connection" (configGet cfg "connection")
  let network ← asStringE "network" (lookupKV connection "network")
  let address ← asStringE "address" (lookupKV connection "address")
  pure (network ++ "://" ++ address ++ "?timeout=10s")

/-- `GetBrokerCredentials` (source lines 260-263): `(username, password)`. -/
def GetBrokerCredentials (cfg : Config) : Except GoPanic (String × String) := do
  let connection ← asObjE "connection" (configGet cfg "connection")
  let username ← asStringE "username" (lookupKV connection "username")
  let password ← asStringE "password" (lookupKV connection "password")
  pure (username, password)

/-- `GetBrokerClientID` (source lines 266-269). -/
def GetBrokerClientID (cfg : Config) : Except GoPanic String := do
  let connection ← asObjE "connection" (configGet cfg "connection")
  asStringE "clientId" (lookupKV connection "clientId")

/-- `GetBrokerTopicName` (source lines 272-275). -/
def GetBrokerTopicName (cfg : Config) : Except GoPanic String := do
  let connection ← asObjE "connection" (configGet cfg "connection")
  asStringE "topic" (lookupKV connection "topic")

/-- Modelled from the spec: the fixed allow-list of transport schemes
`AvailableConnectionTypes` is declared outside the provided source files;
the spec guarantees only that it is a fixed list and that `"tcp"` is
accepted (§8). -/
def AvailableConnectionTypes : List String := ["tcp"]

/-- Modelled from the spec: `utils.StringInSlice` (outside the provided
source files) is plain membership of a string in a list. -/
def StringInSlice (s : String) (l : List String) : Bool :=
  l.contains s

/-- Which validation error `Validate` returns (constructor order follows the
source's check order, lines 171-251).  `clientIdNotSet` is the source's
dead branch: the unchecked assertion on line 227 precedes the check. -/
inductive VErr where
  | connectionMissing
  | networkNotSet
  | networkNotValid (network : String)
  | addressNotSet
  | addressNotValid (address : String)
  | usernameNotSet
  | passwordNotSet
  | clientIdNotSet (clientId : String)
  | clientIdTooShort (clientId : String)
  | topicNotSet
deriving DecidableEq

/-- `Validate` (source lines 171-251).  `.ok none` is a `nil` return,
`.ok (some e)` a returned validation error, `.error p` a Go panic.
The first statement logs `c.Name()` (unchecked assertion on `"name"`);
`clientID := data["clientId"].(string)` on line 227 is an unchecked
assertion executed before the corresponding `ok` check. -/
def Validate (cfg : Config) : Except GoPanic (Option VErr) := do
  let _ ← Name cfg
  match configGet cfg "connection" with
  | none => pure (some .connectionMissing)
  | some cv => do
    let data ← asObjE "connection" (some cv)
    if !isStringVal (lookupKV data "network") then
      pure (some .networkNotSet)
    else do
      let network ← asStringE "network" (lookupKV data "network")
      if !StringInSlice network AvailableConnectionTypes then
        pure (some (.networkNotValid network))
      else if !isStringVal (lookupKV data "address") then
        pure (some .addressNotSet)
      else do
        let address ← asStringE "address" (lookupKV data "address")
        if address.length < 5 || !stringContains address ':' then
          pure (some (.addressNotValid address))
        else if !isStringVal (lookupKV data "username") then
          pure (some .usernameNotSet)
        else if !isStringVal (lookupKV data "password") then
          pure (some .passwordNotSet)
        else do
          let clientID ← asStringE "clientId" (lookupKV data "clientId")
          if !isStringVal (lookupKV data "clientId") then
            pure (some (.clientIdNotSet clientID))
          else if clientID.length < 2 then
            pure (some (.clientIdTooShort clientID))
          else if !isStringVal (lookupKV data "topic") then
            pure (some .topicNotSet)
          else
            pure none

/-- The configuration of the spec's acceptance example (§8), plus the
`name` string every operation logs. -/
def cfgGood : Config :=
  [("name", CVal.str "worker"),
   ("connection", CVal.obj
     [("network", CVal.str "tcp"),
      ("address", CVal.str "10.0.0.1:1883"),
      ("username", CVal.str ""),
      ("password", CVal.str ""),
      ("clientId", CVal.str "cl1"),
      ("topic", CVal.str "sensors/1")])]

/-- `cfgGood` with the `clientId` key removed: every rule before `clientId`
passes, and the `clientId` key is absent. -/
def cfgNoClientId : Config :=
  [("name", CVal.str "worker"),
   ("connection", CVal.obj
     [("network", CVal.str "tcp"),
      ("address", CVal.str "10.0.0.1:1883"),
      ("username", CVal.str ""),
      ("password", CVal.str ""),
      ("topic", CVal.str "sensors/1")])]

/-- `cfgGood` with the `name` key removed: a fully valid `connection`
block, but the worker name every operation logs is absent. -/
def cfgNoName : Config :=
  [("connection", CVal.obj
     [("network", CVal.str "tcp"),
      ("address", CVal.str "10.0.0.1:1883"),
      ("username", CVal.str ""),
      ("password", CVal.str ""),
      ("clientId", CVal.str "cl1"),
      ("topic", CVal.str "sensors/1")])]

/-! ### Subscribe (source lines 126-150)

`for i := 0; i <= maxRetryAttempts; i++`: the body runs once for each
`i` in `0..maxRetryAttempts` unless `break` exits earlier, so the number
of iterations is `(maxRetryAttempts + 1).toNat` (zero when the bound is
negative, since `maxRetryAttempts` is a Go `int`).  Each iteration first
logs `c.Name()` (an unchecked assertion), then calls the transport's
`Subscribe`; on a token error it records the error and continues; on
success it logs `c.Name()` and `c.GetBrokerTopicName()` (two more
assertions), clears the error and breaks.  The transport call of attempt
`i` is modelled by `sub i : Option Err` (`none` = success). -/

/-- The loop of `Subscribe` with the configuration accesses threaded
through; the fuel is the number of iterations the `for` bound still
permits, `i` the current attempt index, `err` the `var err error`
accumulator.  Returns the final `err` together with the number of
transport `Subscribe` calls made. -/
def subGo (cfg : Config) (sub : Nat → Option Err) :
    Nat → Nat → Option Err → Except GoPanic (Option Err × Nat)
  | 0, i, err => .ok (err, i)
  | fuel + 1, i, _ => do
    let _ ← Name cfg
    match sub i with
    | some e => subGo cfg sub fuel (i + 1) (some e)
    | none => do
      let _ ← Name cfg
      let _ ← GetBrokerTopicName cfg
      pure (none, i + 1)

/-- `func (c *Connection) Subscribe(topic string, maxRetryAttempts int) error`,
instrumented with the number of transport subscribe calls. -/
def Subscribe (cfg : Config) (sub : Nat → Option Err) (maxRetryAttempts : Int) :
    Except GoPanic (Option Err × Nat) :=
  subGo cfg sub (maxRetryAttempts + 1).toNat 0 none

/-- The pure core of the `Subscribe` loop (the configuration accesses
stripped); used to reason about the loop independently of logging. -/
def subGoPure (sub : Nat → Option Err) : Nat → Nat → Option Err → Option Err × Nat
  | 0, i, err => (err, i)
  | fuel + 1, i, _ =>
    match sub i with
    | some e => subGoPure sub fuel (i + 1) (some e)
    | none => (none, i + 1)

/-- The error `Subscribe` would return for a given per-attempt behaviour
and retry budget, when the configuration accesses succeed. -/
def subscribeResult (sub : Nat → Option Err) (maxRetryAttempts : Int) : Option Err :=
  (subGoPure sub (maxRetryAttempts + 1).toNat 0 none).1

/-! ### BrokerHandler (source lines 153-168) -/

/-- A raw inbound transport message (`MQTT.Message`): topic and payload. -/
structure Msg where
  topic : String
  payload : String
deriving DecidableEq

/-- A decoded domain event (`events.Event`); only its identity matters. -/
structure Event where
  data : String
deriving DecidableEq

/-- `func (c *Connection) BrokerHandler(client, msg)`: logs receipt (which
reads `c.Name()`), decodes the message via `events.NewEvent` — passed in
as `newEvent`, since the `events` package is outside the provided source
files — and on success sends the event into `c.events`.  The drain queue
is modelled as the list of enqueued events; the handler returns the
queue after the call. -/
def BrokerHandler (cfg : Config) (newEvent : Msg → Except Err Event)
    (msg : Msg) (queue : List Event) : Except GoPanic (List Event) := do
  let _ ← Name cfg
  match newEvent msg with
  | .error _ => pure queue
  | .ok event => pure (queue ++ [event])

/-! ### Stop (source lines 288-313) -/

/-- An observable side effect of `Stop` on the transport / clock. -/
inductive StopAction where
  | unsubscribe (topic : String)
  | disconnect (gracefulSeconds : Nat)
  | sleep (seconds : Nat)
deriving DecidableEq

/-- `func (c *Connection) Stop() error`.  Parameters: whether
`c.conn.IsConnected()` reports connected, the `Unsubscribe` token's error,
and the graceful-shutdown window (the constant `GracefulShutdownTimeout`
is declared outside the provided source files, so it is a parameter).
Returns the ordered transport/clock actions and the Go return value. -/
def Stop (cfg : Config) (isConnected : Bool) (unsubErr : Option Err)
    (graceful : Nat) : Except GoPanic (List StopAction × Option Err) := do
  let _ ← Name cfg
  if !isConnected then do
    let _ ← Name cfg
    pure ([], none)
  else do
    let _ ← Name cfg
    let topic ← GetBrokerTopicName cfg
    match unsubErr with
    | some _ => do
      let _ ← GetBrokerTopicName cfg
      let _ ← Name cfg
      let _ ← Name cfg
      pure ([StopAction.unsubscribe topic, StopAction.disconnect graceful,
             StopAction.sleep graceful], none)
    | none => do
      let _ ← Name cfg
      pure ([StopAction.unsubscribe topic, StopAction.disconnect graceful,
             StopAction.sleep graceful], none)

/-! ### Start (source lines 31-120)

`Start(done)` builds the client options (reading `GetBrokerAddr`,
`GetBrokerClientID`, `GetBrokerCredentials`), allocates the channels
`errors` and `connected` (both unbuffered, created once), launches the
supervisor goroutine, and blocks in a three-way `select`.

The supervisor goroutine is an infinite `for` loop.  One *generation* is
one iteration: create a new transport client, `Connect`; on a token error
send on `errors` and `continue`; if `!IsConnected()` `continue`;
otherwise call `c.Subscribe(topic, MaxTopicSubscribeAttempts)` — its
return value is discarded — and then execute `close(connected)`; a
heartbeat goroutine then polls `IsConnected()` every 2 s and fires
`reload` on liveness loss, upon which the loop sleeps 2 s and starts the
next generation.

Channel facts used by the model: `errors` is received only by the
caller's `select`, so a send on it completes only while the caller is
still blocked there, and blocks forever afterwards; `connected` is
closed by the loop, and closing an already-closed channel panics in Go.
Advancing from an established generation `g` to `g + 1` models a
heartbeat liveness loss; the model assumes the generation outcomes
arrive before the initial-connection timeout (the timeout branch is
modelled separately by `startCaseBehavior`). -/

/-- The environment a run of the supervisor loop interacts with:
`connect g` is generation `g`'s `Connect` token error, `alive g` the
`IsConnected()` check right after a successful connect, `subAt g i` the
result of generation `g`'s `i`-th transport subscribe attempt. -/
structure LoopEnv where
  connect : Nat → Option Err
  alive : Nat → Bool
  subAt : Nat → Nat → Option Err

/-- What one generation of the supervisor loop does, as observable from
outside. -/
inductive GenEvent where
  | errorToCaller (e : Err)
  | errorSendBlocked
  | skippedNotConnected
  | signaledConnected (subErr : Option Err)
  | panickedDoubleClose (subErr : Option Err)
  | notReached
deriving DecidableEq

/-- The supervisor loop's state between generations: whether the caller
is still blocked in `Start`'s `select` (able to receive on `errors` or
observe `close(connected)`), whether `connected` has already been closed,
and whether the loop has died (blocked forever on `errors` or panicked). -/
structure LoopState where
  callerListening : Bool
  connectedClosed : Bool
  dead : Bool
deriving DecidableEq

/-- One generation of the supervisor loop (one iteration of the outer
`for`), translated from source lines 47-96.  `budget` is
`MaxTopicSubscribeAttempts` (declared outside the provided source files,
so a parameter). -/
def stepGen (env : LoopEnv) (budget : Int) (g : Nat) (s : LoopState) :
    GenEvent × LoopState :=
  if s.dead then (.notReached, s)
  else
    match env.connect g with
    | some e =>
      if s.callerListening then
        (.errorToCaller e, { s with callerListening := false })
      else
        (.errorSendBlocked, { s with dead := true })
    | none =>
      if !env.alive g then (.skippedNotConnected, s)
      else
        let subErr := subscribeResult (env.subAt g) budget
        if s.connectedClosed then
          (.panickedDoubleClose subErr, { s with dead := true })
        else
          (.signaledConnected subErr,
           { callerListening := false, connectedClosed := true, dead := false })

/-- The loop state before generation `g` (generation 0 starts with the
caller blocked in the `select` and `connected` not yet closed). -/
def loopStateAt (env : LoopEnv) (budget : Int) : Nat → LoopState
  | 0 => ⟨true, false, false⟩
  | g + 1 => (stepGen env budget g (loopStateAt env budget g)).2

/-- The observable event of generation `g`. -/
def genEvent (env : LoopEnv) (budget : Int) (g : Nat) : GenEvent :=
  (stepGen env budget g (loopStateAt env budget g)).1

/-- The three ways the caller's `select` (source lines 98-113) can be
woken. -/
inductive StartCase where
  | connected
  | errReceived (e : Err)
  | timedOut
deriving DecidableEq

/-- The error value built in the timeout branch (source lines 110-113);
the claims depend only on its identity. -/
def initialTimeoutErr : Err :=
  "Could not establish mqtt connection due to initial connection timeout"

/-- What the body of each `select` case does, read off source lines
98-117: whether it executes a `return` inside the case, what it sends on
`errors`, and whether it falls through to the final `return nil` on
line 119. -/
structure CaseBehavior where
  returnsImmediately : Option (Option Err)
  sendsOnErrors : Option Err
  fallsThroughToNil : Bool
deriving DecidableEq

/-- The `select` case bodies: the `connected` case logs and `break`s
(falling through to `return nil`); the error case `return err`s; the
timeout case sends the constructed timeout error on `errors` and then
`break`s towards `return nil`. -/
def startCaseBehavior : StartCase → CaseBehavior
  | .connected => ⟨none, none, true⟩
  | .errReceived e => ⟨some (some e), none, false⟩
  | .timedOut => ⟨none, some initialTimeoutErr, true⟩

/-- What `Start`'s caller observes in each case.  A send on `errors` in a
case body can never complete: the only receive on `errors` in the whole
program is this very `select`, which has already fired — so the caller
blocks forever instead of reaching any `return`. -/
inductive StartOutcome where
  | returns (r : Option Err)
  | blocks
deriving DecidableEq

/-- The caller-visible outcome of each `select` case. -/
def startSelectOutcome (c : StartCase) : StartOutcome :=
  match (startCaseBehavior c).sendsOnErrors with
  | some _ => .blocks
  | none =>
    match (startCaseBehavior c).returnsImmediately with
    | some r => .returns r
    | none => .returns none

/-- The accessor reads `Start` performs on the caller's side before
launching the loop (source lines 32-39): broker address, client id,
credentials. -/
def startPrelude (cfg : Config) : Except GoPanic (String × String × String × String) := do
  let addr ← GetBrokerAddr cfg
  let cid ← GetBrokerClientID cfg
  let cred ← GetBrokerCredentials cfg
  pure (addr, cid, cred.1, cred.2)

/-- The first statement of every supervisor-loop iteration (source
line 49) logs `c.Name()` and `c.GetBrokerAddr()`; this is where `Start`
itself logs the worker name. -/
def loopIterPrelude (cfg : Config) : Except GoPanic (String × String) := do
  let nm ← Name cfg
  let addr ← GetBrokerAddr cfg
  pure (nm, addr)

/-- A run in which every connect succeeds, the transport always reports
connected, and every subscribe attempt fails. -/
def envSubFail : LoopEnv :=
  ⟨fun _ => none, fun _ => true, fun _ _ => some "suberr"⟩

/-- A run in which every connect succeeds, the transport reports
connected, and every subscribe attempt succeeds. -/
def envGood : LoopEnv :=
  ⟨fun _ => none, fun _ => true, fun _ _ => none⟩

/-! ## Sanity evaluations of the embedding on concrete inputs -/

example : Validate cfgGood = .ok none := rfl
example : Validate cfgNoClientId = .error (.interfaceConversion "clientId") := rfl
example : Name cfgGood = .ok "worker" := rfl
example : GetBrokerAddr cfgGood = .ok "tcp://10.0.0.1:1883?timeout=10s" := rfl
example : GetBrokerTopicName cfgGood = .ok "sensors/1" := rfl
example : genEvent envSubFail 3 0 = .signaledConnected (some "suberr") := rfl
example : genEvent envGood 3 0 = .signaledConnected none := rfl
example : genEvent envGood 3 1 = .panickedDoubleClose none := rfl
example : Subscribe cfgGood (fun i => if i < 2 then some "boom" else none) 3 = .ok (none, 3) := rfl
example : Stop cfgGood true (some "uerr") 5 =
  .ok ([.unsubscribe "sensors/1", .disconnect 5, .sleep 5], none) := rfl

/-! ## Helper lemmas -/

/-- Helper: bind on a successful `Except` computation reduces. -/
@[simp] theorem ok_bind {ε α β : Type} (a : α) (f : α → Except ε β) :
    (Except.ok a >>= f) = f a := rfl

/-- Helper: bind on a panicked `Except` computation short-circuits. -/
@[simp] theorem error_bind {ε α β : Type} (e : ε) (f : α → Except ε β) :
    ((Except.error e : Except ε α) >>= f) = Except.error e := rfl

/-- Helper: map over a successful `Except` computation reduces. -/
@[simp] theorem map_ok {ε α β : Type} (f : α → β) (a : α) :
    (f <$> (Except.ok a : Except ε α)) = Except.ok (f a) := rfl

/-- Helper: map over a panicked `Except` computation short-circuits. -/
@[simp] theorem map_error {ε α β : Type} (f : α → β) (e : ε) :
    (f <$> (Except.error e : Except ε α)) = Except.error e := rfl

/-- When the worker name and topic are readable, the `Subscribe` loop
never panics and agrees with its pure core. -/
theorem subGo_eq_pure (cfg : Config) (nm tp : String)
    (hn : Name cfg = .ok nm) (ht : GetBrokerTopicName cfg = .ok tp)
    (sub : Nat → Option Err) :
    ∀ fuel i err, subGo cfg sub fuel i err = .ok (subGoPure sub fuel i err) := by
  intro fuel
  induction fuel with
  | zero => intro i err; rfl
  | succ f ih =>
    intro i err
    simp only [subGo, subGoPure, hn, ht]
    cases h : sub i with
    | some e =>
      simp only [h, Bind.bind, Except.bind]
      exact ih (i + 1) (some e)
    | none =>
      simp only [h, Bind.bind, Except.bind, Pure.pure, Except.pure]

/-- The loop makes at most `fuel` transport calls beyond index `i`. -/
theorem subGoPure_calls_le (sub : Nat → Option Err) :
    ∀ fuel i err, (subGoPure sub fuel i err).2 ≤ i + fuel := by
  intro fuel
  induction fuel with
  | zero => intro i err; simp [subGoPure]
  | succ f ih =>
    intro i err
    simp only [subGoPure]
    cases h : sub i with
    | some e =>
      simp only [h]
      have := ih (i + 1) (some e)
      omega
    | none => simp only [h]; omega

/-- If attempt `i + k` is the first success within the fuel, the loop
stops there with a `nil` error after exactly `k + 1` further calls. -/
theorem subGoPure_first_success (sub : Nat → Option Err) :
    ∀ k fuel i err, k < fuel → sub (i + k) = none →
      (∀ j, j < k → sub (i + j) ≠ none) →
      subGoPure sub fuel i err = (none, i + k + 1) := by
  intro k
  induction k with
  | zero =>
    intro fuel i err hk hs _
    match fuel, hk with
    | f + 1, _ =>
      rw [Nat.add_zero] at hs
      simp only [subGoPure, hs]
  | succ k ih =>
    intro fuel i err hk hs hprev
    match fuel, hk with
    | f + 1, hk =>
      have h0 : sub i ≠ none := by
        have := hprev 0 (Nat.succ_pos k)
        simpa using this
      cases h : sub i with
      | none => exact absurd h h0
      | some e =>
        simp only [subGoPure, h]
        have hs' : sub ((i + 1) + k) = none := by
          have heq : (i + 1) + k = i + (k + 1) := by omega
          rwa [heq]
        have hprev' : ∀ j, j < k → sub ((i + 1) + j) ≠ none := by
          intro j hj
          have := hprev (j + 1) (by omega)
          have heq : i + (j + 1) = (i + 1) + j := by omega
          rwa [heq] at this
        rw [ih f (i + 1) (some e) (by omega) hs' hprev']
        have : (i + 1) + k + 1 = i + (k + 1) + 1 := by omega
        rw [this]

/-- If every attempt within the fuel fails, the loop exhausts the fuel
and keeps the error of the last attempt. -/
theorem subGoPure_all_fail (sub : Nat → Option Err) :
    ∀ fuel i err, 0 < fuel → (∀ j, j < fuel → sub (i + j) ≠ none) →
      subGoPure sub fuel i err = (sub (i + fuel - 1), i + fuel) := by
  intro fuel
  induction fuel with
  | zero => intro i err h; exact absurd h (by omega)
  | succ f ih =>
    intro i err _ hall
    have h0 : sub i ≠ none := by
      have := hall 0 (by omega)
      simpa using this
    cases h : sub i with
    | none => exact absurd h h0
    | some e =>
      simp only [subGoPure, h]
      cases Nat.eq_zero_or_pos f with
      | inl hf0 =>
        subst hf0
        simp only [subGoPure]
        have h1 : i + 1 - 1 = i := by omega
        rw [h1, h]
      | inr hfpos =>
        have hall' : ∀ j, j < f → sub ((i + 1) + j) ≠ none := by
          intro j hj
          have := hall (j + 1) (by omega)
          have heq : i + (j + 1) = (i + 1) + j := by omega
          rwa [heq] at this
        rw [ih (i + 1) (some e) hfpos hall']
        have h1 : (i + 1) + f - 1 = i + (f + 1) - 1 := by omega
        have h2 : (i + 1) + f = i + (f + 1) := by omega
        rw [h1, h2]

/-- Helper: a failed unchecked string assertion panics. -/
theorem asStringE_not_str (key : String) (v : Option CVal)
    (h : ∀ s, v ≠ some (CVal.str s)) :
    asStringE key v = .error (.interfaceConversion key) := by
  match v with
  | none => rfl
  | some (.str s) => exact absurd rfl (h s)
  | some (.obj m) => rfl
  | some (.int k) => rfl

/-- Helper: a failed unchecked map assertion panics. -/
theorem asObjE_not_obj (key : String) (v : Option CVal)
    (h : ∀ m, v ≠ some (CVal.obj m)) :
    asObjE key v = .error (.interfaceConversion key) := by
  match v with
  | none => rfl
  | some (.str s) => rfl
  | some (.obj m) => exact absurd rfl (h m)
  | some (.int k) => rfl

/-! ## Claims -/

/-- C1 counterexample: in a run whose first connect succeeds, the
transport reports connected, and every subscribe attempt fails, the loop
still executes `close(connected)` (`signaledConnected` with the failed
subscribe result `some "suberr"`), and the caller's `connected` case
returns `nil` — `Start` releases the caller with success although the
initial `Subscribe` failed, refuting the claim that success implies a
successful first subscribe. -/
theorem Start_success_despite_subscribe_failure :
    genEvent envSubFail 3 0 = GenEvent.signaledConnected (some "suberr") ∧
    startSelectOutcome StartCase.connected = StartOutcome.returns none :=
  ⟨rfl, rfl⟩

/-- C1 (amended): `Start` signals `connected` — releasing the caller with
success — as soon as the first connect succeeds and the transport reports
connected, whatever the initial `Subscribe` returns: the subscribe result
is computed and discarded, never propagated to the connect-failure path. -/
theorem Start_release_requires_only_connect (env : LoopEnv) (budget : Int)
    (hc : env.connect 0 = none) (ha : env.alive 0 = true) :
    genEvent env budget 0 =
      GenEvent.signaledConnected (subscribeResult (env.subAt 0) budget) ∧
    startSelectOutcome StartCase.connected = StartOutcome.returns none := by
  refine ⟨?_, rfl⟩
  simp [genEvent, loopStateAt, stepGen, hc, ha]

/-- Witness for `Start_release_requires_only_connect` at the concrete run
`envSubFail` with budget 7. -/
theorem Start_release_requires_only_connect_witness :
    genEvent envSubFail 7 0 =
      GenEvent.signaledConnected (subscribeResult (envSubFail.subAt 0) 7) ∧
    startSelectOutcome StartCase.connected = StartOutcome.returns none :=
  Start_release_requires_only_connect envSubFail 7 rfl rfl

/-- C2: when the initial-connection timeout case of `Start`'s `select`
fires, the case body executes no `return` of its own and instead sends
the constructed timeout error on the `errors` channel — whose only
receiver is this already-completed `select` — so the caller blocks
forever on that send (and the code after the `select` would `return nil`
anyway): `Start` never returns the timeout error. -/
theorem Start_timeout_case_returns_no_error :
    startCaseBehavior StartCase.timedOut =
      ⟨none, some initialTimeoutErr, true⟩ ∧
    startSelectOutcome StartCase.timedOut = StartOutcome.blocks :=
  ⟨rfl, rfl⟩

/-- C3: for every non-negative retry bound `n`, `Subscribe` makes at most
`n + 1` transport calls; it returns `nil` after exactly `k + 1` calls when
attempt `k ≤ n` is the first success; and when every attempt `0..n`
fails it returns the error of the last attempt after exactly `n + 1`
calls. -/
theorem Subscribe_bounded_retry (cfg : Config) (nm tp : String)
    (hn : Name cfg = .ok nm) (ht : GetBrokerTopicName cfg = .ok tp)
    (sub : Nat → Option Err) (n : Nat) :
    (∃ r calls, Subscribe cfg sub (n : Int) = .ok (r, calls) ∧ calls ≤ n + 1) ∧
    (∀ k, k ≤ n → sub k = none → (∀ j, j < k → sub j ≠ none) →
      Subscribe cfg sub (n : Int) = .ok (none, k + 1)) ∧
    ((∀ j, j ≤ n → sub j ≠ none) →
      Subscribe cfg sub (n : Int) = .ok (sub n, n + 1)) := by
  have hfuel : ((n : Int) + 1).toNat = n + 1 := by omega
  have hbridge := subGo_eq_pure cfg nm tp hn ht sub
  refine ⟨?_, ?_, ?_⟩
  · refine ⟨(subGoPure sub (n + 1) 0 none).1, (subGoPure sub (n + 1) 0 none).2, ?_, ?_⟩
    · unfold Subscribe
      rw [hfuel, hbridge]
    · have := subGoPure_calls_le sub (n + 1) 0 none
      omega
  · intro k hk hs hprev
    unfold Subscribe
    rw [hfuel, hbridge]
    have := subGoPure_first_success sub k (n + 1) 0 none (by omega)
      (by simpa using hs) (by intro j hj; simpa using hprev j hj)
    rw [this]
    simp
  · intro hall
    unfold Subscribe
    rw [hfuel, hbridge]
    have := subGoPure_all_fail sub (n + 1) 0 none (by omega)
      (by intro j hj; have := hall j (by omega); simpa using this)
    rw [this]
    simp

/-- Witness for `Subscribe_bounded_retry`: against a transport failing
twice then succeeding, `Subscribe(topic, 3)` returns `nil` after exactly
3 transport calls. -/
theorem Subscribe_bounded_retry_witness :
    Subscribe cfgGood (fun i => if i < 2 then some "boom" else none) (3 : Int) =
      .ok (none, 3) := by
  have h := (Subscribe_bounded_retry cfgGood "worker" "sensors/1" rfl rfl
      (fun i => if i < 2 then some "boom" else none) 3).2.1
  exact h 2 (by omega) (by norm_num) (by decide)

/-- C4: after a successful start (generation 0 signals `connected`), the
first liveness loss makes generation 1 create a fresh client and
re-subscribe, but the generation then re-executes `close(connected)` on
the already-closed channel — a Go panic that kills the supervisor loop,
contradicting survival of arbitrarily many reconnections. -/
theorem Start_reconnect_double_close_panics :
    genEvent envGood 3 0 = GenEvent.signaledConnected none ∧
    genEvent envGood 3 1 = GenEvent.panickedDoubleClose none :=
  ⟨rfl, rfl⟩

/-- C5: on the spec's acceptance configuration `Validate` returns `nil`,
but on the same configuration with the `clientId` key absent it panics at
the unchecked assertion `data["clientId"].(string)` (source line 227)
instead of returning the descriptive clientId error of the dead check
right below it. -/
theorem Validate_panics_on_missing_clientId :
    Validate cfgGood = .ok none ∧
    Validate cfgNoClientId = .error (GoPanic.interfaceConversion "clientId") :=
  ⟨rfl, rfl⟩

/-- C6: when the transport reports not connected, `Stop` performs no
transport action and returns `nil` immediately; when connected, it
unsubscribes, then disconnects, then sleeps for the graceful window —
in that order — and returns `nil`, for either outcome of the
unsubscribe (an unsubscribe error is only logged). -/
theorem Stop_behavior (cfg : Config) (nm tp : String)
    (hn : Name cfg = .ok nm) (ht : GetBrokerTopicName cfg = .ok tp)
    (unsubErr : Option Err) (graceful : Nat) :
    Stop cfg false unsubErr graceful = .ok ([], none) ∧
    Stop cfg true unsubErr graceful =
      .ok ([StopAction.unsubscribe tp, StopAction.disconnect graceful,
            StopAction.sleep graceful], none) := by
  constructor
  · simp [Stop, hn]
  · cases unsubErr <;> simp [Stop, hn, ht]

/-- Witness for `Stop_behavior` on `cfgGood` with a failing unsubscribe
and a 5-second graceful window. -/
theorem Stop_behavior_witness :
    Stop cfgGood false (some "uerr") 5 = .ok ([], none) ∧
    Stop cfgGood true (some "uerr") 5 =
      .ok ([StopAction.unsubscribe "sensors/1", StopAction.disconnect 5,
            StopAction.sleep 5], none) :=
  Stop_behavior cfgGood "worker" "sensors/1" rfl rfl (some "uerr") 5

/-- C7: for every inbound message, the handler appends exactly the decoded
event to the drain queue when decoding succeeds, and leaves the queue
unchanged (returning without enqueueing) when decoding fails. -/
theorem BrokerHandler_behavior (cfg : Config) (nm : String)
    (hn : Name cfg = .ok nm) (newEvent : Msg → Except Err Event)
    (msg : Msg) (queue : List Event) :
    (∀ event, newEvent msg = .ok event →
      BrokerHandler cfg newEvent msg queue = .ok (queue ++ [event])) ∧
    (∀ e, newEvent msg = .error e →
      BrokerHandler cfg newEvent msg queue = .ok queue) := by
  constructor
  · intro event hev
    simp [BrokerHandler, hn, hev]
  · intro e hev
    simp [BrokerHandler, hn, hev]

/-- Witness for `BrokerHandler_behavior`: a successfully decoded message
is enqueued onto the empty queue. -/
theorem BrokerHandler_behavior_witness :
    BrokerHandler cfgGood (fun _ => .ok ⟨"ev"⟩) ⟨"sensors/1", "raw"⟩ [] =
      .ok [⟨"ev"⟩] :=
  (BrokerHandler_behavior cfgGood "worker" rfl (fun _ => .ok ⟨"ev"⟩)
    ⟨"sensors/1", "raw"⟩ []).1 ⟨"ev"⟩ rfl

/-- C8: for every configuration whose `connection` map carries string
`network` and `address`, `GetBrokerAddr` returns exactly
`network ++ "://" ++ address ++ "?timeout=10s"` (and, being a pure
function of the configuration, has no side effects). -/
theorem GetBrokerAddr_format (cfg : Config) (conn : ConfigObj) (S A : String)
    (hc : configGet cfg "connection" = some (CVal.obj conn))
    (hs : lookupKV conn "network" = some (CVal.str S))
    (ha : lookupKV conn "address" = some (CVal.str A)) :
    GetBrokerAddr cfg = .ok (S ++ "://" ++ A ++ "?timeout=10s") := by
  simp [GetBrokerAddr, hc, hs, ha, asObjE, asStringE]

/-- Witness for `GetBrokerAddr_format` on the acceptance configuration. -/
theorem GetBrokerAddr_format_witness :
    GetBrokerAddr cfgGood =
      .ok ("tcp" ++ "://" ++ "10.0.0.1:1883" ++ "?timeout=10s") :=
  GetBrokerAddr_format cfgGood
    [("network", CVal.str "tcp"),
     ("address", CVal.str "10.0.0.1:1883"),
     ("username", CVal.str ""),
     ("password", CVal.str ""),
     ("clientId", CVal.str "cl1"),
     ("topic", CVal.str "sensors/1")]
    "tcp" "10.0.0.1:1883" rfl rfl rfl

/-- C9: for every negative retry bound, the `for` condition `i <= max`
fails at once, so `Subscribe` makes no transport call at all and returns
the zero value `nil` — on any configuration, since the loop body (and its
logging) never runs. -/
theorem Subscribe_negative_attempts (cfg : Config) (sub : Nat → Option Err)
    (m : Int) (hm : m < 0) :
    Subscribe cfg sub m = .ok (none, 0) := by
  unfold Subscribe
  have h0 : (m + 1).toNat = 0 := by omega
  rw [h0]
  rfl

/-- Witness for `Subscribe_negative_attempts` at bound `-1` on the empty
configuration (no panic despite no readable worker name). -/
theorem Subscribe_negative_attempts_witness :
    Subscribe [] (fun _ => some "boom") (-1) = .ok (none, 0) :=
  Subscribe_negative_attempts [] (fun _ => some "boom") (-1) (by decide)

/-- C10: each accessor panics on its unchecked type assertion (rather
than returning an error value) whenever the specific configuration entry
it reads violates its own precondition, each failure mode independently:
`Name` when `name` is absent or not a string; every connection accessor
(and `Start`'s option building) when `connection` is absent or not an
object; each connection accessor when its own sub-field of an object
`connection` is absent or not a string; and every operation that logs
the worker name before doing anything else — `Validate`, `Stop`,
`BrokerHandler`, `Subscribe` with a non-negative bound, and `Start`'s
supervisor-loop prelude — whenever `name` alone is bad, however
well-formed `connection` is. -/
theorem config_access_panics (cfg : Config) :
    ((∀ s, configGet cfg "name" ≠ some (CVal.str s)) →
      Name cfg = .error (.interfaceConversion "name")) ∧
    ((∀ m, configGet cfg "connection" ≠ some (CVal.obj m)) →
      GetBrokerAddr cfg = .error (.interfaceConversion "connection") ∧
      GetBrokerCredentials cfg = .error (.interfaceConversion "connection") ∧
      GetBrokerClientID cfg = .error (.interfaceConversion "connection") ∧
      GetBrokerTopicName cfg = .error (.interfaceConversion "connection") ∧
      startPrelude cfg = .error (.interfaceConversion "connection")) ∧
    (∀ m, configGet cfg "connection" = some (CVal.obj m) →
      ((∀ s, lookupKV m "network" ≠ some (CVal.str s)) →
        GetBrokerAddr cfg = .error (.interfaceConversion "network")) ∧
      (∀ ns, lookupKV m "network" = some (CVal.str ns) →
        (∀ s, lookupKV m "address" ≠ some (CVal.str s)) →
        GetBrokerAddr cfg = .error (.interfaceConversion "address")) ∧
      ((∀ s, lookupKV m "username" ≠ some (CVal.str s)) →
        GetBrokerCredentials cfg = .error (.interfaceConversion "username")) ∧
      (∀ us, lookupKV m "username" = some (CVal.str us) →
        (∀ s, lookupKV m "password" ≠ some (CVal.str s)) →
        GetBrokerCredentials cfg = .error (.interfaceConversion "password")) ∧
      ((∀ s, lookupKV m "clientId" ≠ some (CVal.str s)) →
        GetBrokerClientID cfg = .error (.interfaceConversion "clientId")) ∧
      ((∀ s, lookupKV m "topic" ≠ some (CVal.str s)) →
        GetBrokerTopicName cfg = .error (.interfaceConversion "topic"))) ∧
    ((∀ s, configGet cfg "name" ≠ some (CVal.str s)) →
      Validate cfg = .error (.interfaceConversion "name") ∧
      (∀ isConn unsubErr graceful, Stop cfg isConn unsubErr graceful =
        .error (.interfaceConversion "name")) ∧
      (∀ newEvent msg queue, BrokerHandler cfg newEvent msg queue =
        .error (.interfaceConversion "name")) ∧
      (∀ sub (n : Nat), Subscribe cfg sub (n : Int) =
        .error (.interfaceConversion "name")) ∧
      loopIterPrelude cfg = .error (.interfaceConversion "name")) := by
  refine ⟨?_, ?_, ?_, ?_⟩
  · intro hname
    exact asStringE_not_str "name" _ hname
  · intro hconn
    have hco : asObjE "connection" (configGet cfg "connection") =
        .error (.interfaceConversion "connection") :=
      asObjE_not_obj "connection" _ hconn
    refine ⟨?_, ?_, ?_, ?_, ?_⟩
    · simp [GetBrokerAddr, hco]
    · simp [GetBrokerCredentials, hco]
    · simp [GetBrokerClientID, hco]
    · simp [GetBrokerTopicName, hco]
    · simp [startPrelude, GetBrokerAddr, hco]
  · intro m hm
    have hcm : asObjE "connection" (configGet cfg "connection") = .ok m := by
      rw [hm]
      rfl
    refine ⟨?_, ?_, ?_, ?_, ?_, ?_⟩
    · intro hnet
      have h1 := asStringE_not_str "network" (lookupKV m "network") hnet
      simp [GetBrokerAddr, hcm, h1]
    · intro ns hns hads
      have h1 : asStringE "network" (lookupKV m "network") = .ok ns := by
        rw [hns]
        rfl
      have h2 := asStringE_not_str "address" (lookupKV m "address") hads
      simp [GetBrokerAddr, hcm, h1, h2]
    · intro hus
      have h1 := asStringE_not_str "username" (lookupKV m "username") hus
      simp [GetBrokerCredentials, hcm, h1]
    · intro us hus hpw
      have h1 : asStringE "username" (lookupKV m "username") = .ok us := by
        rw [hus]
        rfl
      have h2 := asStringE_not_str "password" (lookupKV m "password") hpw
      simp [GetBrokerCredentials, hcm, h1, h2]
    · intro hcid
      have h1 := asStringE_not_str "clientId" (lookupKV m "clientId") hcid
      simp [GetBrokerClientID, hcm, h1]
    · intro htp
      have h1 := asStringE_not_str "topic" (lookupKV m "topic") htp
      simp [GetBrokerTopicName, hcm, h1]
  · intro hname
    have hn : Name cfg = .error (.interfaceConversion "name") :=
      asStringE_not_str "name" _ hname
    refine ⟨?_, ?_, ?_, ?_, ?_⟩
    · simp [Validate, hn]
    · intro isConn unsubErr graceful
      simp [Stop, hn]
    · intro newEvent msg queue
      simp [BrokerHandler, hn]
    · intro sub n
      unfold Subscribe
      have h0 : ((n : Int) + 1).toNat = n + 1 := by omega
      rw [h0]
      simp [subGo, hn]
    · simp [loopIterPrelude, hn]

/-- Witness for `config_access_panics` at three concrete configurations:
`GetBrokerClientID` panics on a connection object lacking the `clientId`
key, `Validate` panics when only the worker name is missing (connection
fully valid), and `Name` panics on the empty configuration. -/
theorem config_access_panics_witness :
    GetBrokerClientID cfgNoClientId = .error (.interfaceConversion "clientId") ∧
    Validate cfgNoName = .error (.interfaceConversion "name") ∧
    Name [] = .error (.interfaceConversion "name") := by
  refine ⟨?_, ?_, ?_⟩
  · exact ((config_access_panics cfgNoClientId).2.2.1
      [("network", CVal.str "tcp"),
       ("address", CVal.str "10.0.0.1:1883"),
       ("username", CVal.str ""),
       ("password", CVal.str ""),
       ("topic", CVal.str "sensors/1")] rfl).2.2.2.2.1
      (by intro s hcontra; simp [lookupKV] at hcontra)
  · exact ((config_access_panics cfgNoName).2.2.2
      (by intro s hcontra; simp [configGet, lookupKV] at hcontra)).1
  · exact (config_access_panics []).1
      (by intro s hcontra; simp [configGet, lookupKV] at hcontra)

end Mqtt
